import Mathlib

/-!
Verification development for the Junior task-dashboard frontend.

The definitions below are a shallow embedding of the TypeScript source:
the data model of `lib/api.ts`, the `ApiClient` operations, the
`usePolling` hook, and the state-updating handlers of the task details
panel, the task list, and the submission form.  HTTP interaction is
modelled by passing the response (success flag, status code, parsed
JSON body) as an explicit argument; component state is passed
explicitly and the handlers return the updated state together with any
request issued and any callback invoked.
-/

namespace Junior

/-- Status of a backend task, from the `Task` record of `lib/api.ts`. -/
inductive TaskStatus where
  | running
  | completed
  | failed
deriving DecidableEq, Repr

/-- One feedback round, from `FeedbackHistoryItem` of `lib/api.ts`. -/
structure FeedbackHistoryItem where
  feedback : String
  timestamp : String
deriving DecidableEq, Repr

/-- The `Task` record of `lib/api.ts`.  Optional (possibly `undefined`
or `null`) fields are modelled with `Option`. -/
structure Task where
  id : String
  task : String
  status : TaskStatus
  start_time : String
  end_time : Option String
  output : Option String
  error : Option String
  return_code : Option Int
  temp_dir : Option String
  session_id : Option String
  original_task : Option String
  feedback_history : Option (List FeedbackHistoryItem)
deriving DecidableEq, Repr

/-- The `TaskListResponse` record of `lib/api.ts`. -/
structure TaskListResponse where
  tasks : List Task
  total : Nat
deriving DecidableEq, Repr

/-- The `ExecuteTaskResponse` record of `lib/api.ts`. -/
structure ExecuteTaskResponse where
  task_id : String
  message : String
deriving DecidableEq, Repr

/-- The `TaskFile` record of `lib/api.ts`. -/
structure TaskFile where
  path : String
  name : String
  type : String
  content : String
  size : Nat
deriving DecidableEq, Repr

/-- The `content_type` tag of a `TaskContentResponse`
(the union `'files' | 'diff'`). -/
inductive ContentType where
  | files
  | diff
deriving DecidableEq, Repr

/-- The `content` payload of a `TaskContentResponse`
(the union `TaskFile[] | string`). -/
inductive ContentPayload where
  | fileList : List TaskFile → ContentPayload
  | text : String → ContentPayload
deriving DecidableEq, Repr

/-- The `TaskContentResponse` record of `lib/api.ts`. -/
structure TaskContentResponse where
  task_id : String
  is_git_repo : Bool
  content_type : ContentType
  content : Option ContentPayload
  count : Option Nat
deriving DecidableEq, Repr

/-- The `DeleteTaskResponse` record of `lib/api.ts`. -/
structure DeleteTaskResponse where
  message : String
  task_id : String
deriving DecidableEq, Repr

/-- The `CreatePRRequest` record of `lib/api.ts`. -/
structure CreatePRRequest where
  github_token : String
  pr_title : Option String
  pr_body : Option String
deriving DecidableEq, Repr

/-- The `CreatePRResponse` record of `lib/api.ts`. -/
structure CreatePRResponse where
  success : Bool
  pr_url : Option String
  pr_number : Option Nat
  branch_name : Option String
  message : Option String
  error : Option String
deriving DecidableEq, Repr

/-- The `FeedbackRequest` record of `lib/api.ts`. -/
structure FeedbackRequest where
  feedback : String
deriving DecidableEq, Repr

/-- The `FeedbackResponse` record of `lib/api.ts`. -/
structure FeedbackResponse where
  success : Bool
  feedback_task_id : String
  message : String
  error : Option String
deriving DecidableEq, Repr

/-- The body of `GET /running` as consumed by
`ApiClient.listRunningTasks` (`running_tasks` and `count` fields). -/
structure RunningTasksResponse where
  running_tasks : List Task
  count : Nat
deriving DecidableEq, Repr

/-- The body of `GET /completed` as consumed by
`ApiClient.listCompletedTasks` (`completed_tasks` and `count` fields). -/
structure CompletedTasksResponse where
  completed_tasks : List Task
  count : Nat
deriving DecidableEq, Repr

/-- An HTTP response as seen by the client after JSON parsing: the
`ok` flag, the numeric status, and the parsed body. -/
structure HttpResponse (α : Type) where
  ok : Bool
  status : Nat
  body : α
deriving DecidableEq, Repr

/-- The generic error message thrown on a non-2xx response:
`HTTP error! status: ...` . -/
def httpErrMsg (status : Nat) : String :=
  "HTTP error! status: " ++ toString status

/-- JavaScript `a || b` for an optional string `a`: the fallback is
used when `a` is absent or empty (falsy). -/
def jsOrString (a : Option String) (b : String) : String :=
  match a with
  | some s => if s = "" then b else s
  | none => b

/-- JavaScript `String.prototype.trim`, modelled over the character
list: leading and trailing whitespace characters are removed. -/
def jsTrim (s : String) : String :=
  String.mk
    (((s.data.dropWhile Char.isWhitespace).reverse.dropWhile
        Char.isWhitespace).reverse)

/-- Whether an `Except` result is a success (the call did not throw). -/
def isOkE {α : Type} : Except String α → Bool
  | .ok _ => true
  | .error _ => false

/-- `ApiClient.executeTask` applied to the HTTP response of
`POST /execute`. -/
def executeTask (r : HttpResponse ExecuteTaskResponse) :
    Except String ExecuteTaskResponse :=
  if r.ok then .ok r.body else .error (httpErrMsg r.status)

/-- `ApiClient.getTaskStatus` applied to the HTTP response of
`GET /status/id`. -/
def getTaskStatus (r : HttpResponse Task) : Except String Task :=
  if r.ok then .ok r.body else .error (httpErrMsg r.status)

/-- `ApiClient.listAllTasks` applied to the HTTP response of
`GET /tasks`. -/
def listAllTasks (r : HttpResponse TaskListResponse) :
    Except String TaskListResponse :=
  if r.ok then .ok r.body else .error (httpErrMsg r.status)

/-- `ApiClient.listRunningTasks` applied to the HTTP response of
`GET /running`: maps `running_tasks` to `tasks` and `count` to
`total`. -/
def listRunningTasks (r : HttpResponse RunningTasksResponse) :
    Except String TaskListResponse :=
  if r.ok then .ok ⟨r.body.running_tasks, r.body.count⟩
  else .error (httpErrMsg r.status)

/-- `ApiClient.listCompletedTasks` applied to the HTTP response of
`GET /completed`: maps `completed_tasks` to `tasks` and `count` to
`total`. -/
def listCompletedTasks (r : HttpResponse CompletedTasksResponse) :
    Except String TaskListResponse :=
  if r.ok then .ok ⟨r.body.completed_tasks, r.body.count⟩
  else .error (httpErrMsg r.status)

/-- `ApiClient.getTaskContent` applied to the HTTP response of
`GET /content/id`. -/
def getTaskContent (r : HttpResponse TaskContentResponse) :
    Except String TaskContentResponse :=
  if r.ok then .ok r.body else .error (httpErrMsg r.status)

/-- `ApiClient.deleteTask` applied to the HTTP response of
`DELETE /delete/id`. -/
def deleteTask (r : HttpResponse DeleteTaskResponse) :
    Except String DeleteTaskResponse :=
  if r.ok then .ok r.body else .error (httpErrMsg r.status)

/-- `ApiClient.createPullRequest` applied to the HTTP response of
`POST /create-pr/id`.  On failure the error body is re-read and its
`error` field (when truthy) is preferred over the generic message. -/
def createPullRequest (r : HttpResponse CreatePRResponse) :
    Except String CreatePRResponse :=
  if r.ok then .ok r.body
  else .error (jsOrString r.body.error (httpErrMsg r.status))

/-- `ApiClient.sendFeedback` applied to the HTTP response of
`POST /feedback/id`.  Error handling as in `createPullRequest`. -/
def sendFeedback (r : HttpResponse FeedbackResponse) :
    Except String FeedbackResponse :=
  if r.ok then .ok r.body
  else .error (jsOrString r.body.error (httpErrMsg r.status))

/-- The JS path-defaulting `p || '/dev/null'` used by `getFileType` in
the task details panel: absent or empty paths become `/dev/null`. -/
def resolvePath (p : Option String) : String :=
  match p with
  | none => "/dev/null"
  | some s => if s = "" then "/dev/null" else s

/-- `getFileType` from the diff rendering of the task details panel:
classifies a parsed diff file from its old and new paths. -/
def getFileType (oldPath newPath : Option String) : String :=
  if resolvePath oldPath = "/dev/null" then "add"
  else if resolvePath newPath = "/dev/null" then "delete"
  else if resolvePath oldPath ≠ resolvePath newPath then "rename"
  else "modify"

/-- Whether a status is terminal, as tested by `silentRefreshTask`
(`status === completed || status === failed`). -/
def isTerminal (s : TaskStatus) : Bool :=
  match s with
  | .completed => true
  | .failed => true
  | .running => false

/-- The `hasChanges` test of `silentRefreshTask`: the fetched task
differs from the displayed one on a tracked field (status, end time,
output, error, or feedback history). -/
def hasChanges (cur upd : Task) : Bool :=
  decide (upd.status ≠ cur.status) ||
  decide (upd.end_time ≠ cur.end_time) ||
  decide (upd.output ≠ cur.output) ||
  decide (upd.error ≠ cur.error) ||
  decide (upd.feedback_history ≠ cur.feedback_history)

/-- One silent background poll (`silentRefreshTask`) given the
currently displayed task and the freshly fetched one: returns the task
displayed afterwards and whether a content re-fetch was triggered. -/
def silentRefreshStep (cur fetched : Task) : Task × Bool :=
  if hasChanges cur fetched then
    (fetched, decide (fetched.status ≠ cur.status) && isTerminal fetched.status)
  else (cur, false)

/-- A run of consecutive silent polls over a list of fetched tasks:
returns the finally displayed task and the number of content
re-fetches triggered along the way. -/
def silentPollTrace : Task → List Task → Task × Nat
  | cur, [] => (cur, 0)
  | cur, f :: rest =>
    let st := silentRefreshStep cur f
    let r := silentPollTrace st.1 rest
    (r.1, (if st.2 then 1 else 0) + r.2)

/-- The documented status invariant over a trace of fetched statuses:
once a status is terminal, later fetches report the same status. -/
def statusInvariant : TaskStatus → List TaskStatus → Bool
  | _, [] => true
  | prev, s :: rest =>
    (!isTerminal prev || decide (s = prev)) && statusInvariant s rest

/-- Number of transitions from `running` into a terminal status along
a trace of fetched statuses. -/
def runToTerminalCount : TaskStatus → List TaskStatus → Nat
  | _, [] => 0
  | prev, s :: rest =>
    (if prev = .running ∧ isTerminal s = true then 1 else 0) +
      runToTerminalCount s rest

/-- The render guard of the Create PR button in the task details
panel: `taskContent?.is_git_repo && session?.accessToken &&
(status === completed || status === failed)`.  An absent or empty
access token is falsy. -/
def createPRButtonVisible (content : Option TaskContentResponse)
    (accessToken : Option String) (t : Task) : Bool :=
  (match content with
   | some c => c.is_git_repo
   | none => false) &&
  (match accessToken with
   | some tok => decide (tok ≠ "")
   | none => false) &&
  isTerminal t.status

/-- The slice of the task details panel state touched by the feedback
flow and the silent poll. -/
structure DetailsState where
  currentTask : Option Task
  taskContent : Option TaskContentResponse
  feedback : String
  sendingFeedback : Bool
  showFeedbackModal : Bool
  showFeedbackSuccess : Bool
  feedbackTaskId : Option String
  error : Option String
deriving DecidableEq, Repr

/-- The locally synthesized task built by `sendFeedback` on backend
success: id from the response, text `Feedback: ...`, status
`running`, fresh start time, and the session id of the task the
feedback was sent on. -/
def mkFeedbackTask (resp : FeedbackResponse) (cur : Task)
    (fb : String) (now : String) : Task :=
  { id := resp.feedback_task_id
    task := "Feedback: " ++ jsTrim fb
    status := .running
    start_time := now
    end_time := none
    output := none
    error := none
    return_code := none
    temp_dir := none
    session_id := cur.session_id
    original_task := none
    feedback_history := none }

/-- The `sendFeedback` handler of the task details panel, given the
result of the `POST /feedback/id` call and the current wall-clock
time.  Mirrors the guard, the success branch, and the error branch of
the source. -/
def sendFeedbackStep (st : DetailsState)
    (result : Except String FeedbackResponse) (now : String) :
    DetailsState :=
  match st.currentTask with
  | none => st
  | some cur =>
    if cur.id = "" ∨ jsTrim st.feedback = "" then st
    else
      match result with
      | .ok resp =>
        if resp.success then
          { st with
              showFeedbackModal := false
              feedback := ""
              feedbackTaskId := some resp.feedback_task_id
              showFeedbackSuccess := true
              currentTask := some (mkFeedbackTask resp cur st.feedback now)
              taskContent := none
              sendingFeedback := false
              error := none }
        else
          { st with sendingFeedback := false, error := none }
      | .error e =>
        { st with sendingFeedback := false, error := some e }

/-- The enable condition of the 1-second silent poll of the task
details panel: `currentTask?.status === 'running'`. -/
def pollingEnabled (st : DetailsState) : Bool :=
  match st.currentTask with
  | some t => decide (t.status = TaskStatus.running)
  | none => false

/-- State of the `usePolling` hook: the callback stored in the ref,
the last-seen dependencies `(interval, enabled)` of the timer effect
(`none` before the first render), and the active timer, identified by
its interval and a fresh id so that restarts are observable. -/
structure PollState (κ : Type) where
  savedCallback : κ
  deps : Option (Nat × Bool)
  timer : Option (Nat × Nat)
  nextId : Nat

/-- One render of a component using `usePolling`: the first effect
stores the latest callback in the ref; the second effect, whose
dependencies are `(interval, enabled)`, re-runs only when those
changed, clearing the previous timer and starting a fresh one exactly
when `enabled` is true. -/
def renderPoll {κ : Type} (st : PollState κ) (cb : κ)
    (interval : Nat) (enabled : Bool) : PollState κ :=
  let st1 : PollState κ := { st with savedCallback := cb }
  if st1.deps = some (interval, enabled) then st1
  else if enabled then
    { st1 with
        timer := some (interval, st1.nextId)
        nextId := st1.nextId + 1
        deps := some (interval, enabled) }
  else
    { st1 with timer := none, deps := some (interval, enabled) }

/-- One timer tick: the callback invoked is the one currently stored
in the ref (`savedCallback.current`). -/
def tickPoll {κ : Type} (st : PollState κ) : κ :=
  st.savedCallback

/-- Component teardown: the effect cleanup clears the timer. -/
def unmountPoll {κ : Type} (st : PollState κ) : PollState κ :=
  { st with timer := none }

/-- An HTTP request as issued by the client: method, URL, and
optional JSON body. -/
structure HttpRequest where
  method : String
  url : String
  body : Option String
deriving DecidableEq, Repr

/-- JSON string escaping as performed by `JSON.stringify` on string
values. -/
def jsonEscapeChar (c : Char) : String :=
  if c = '"' then "\\\""
  else if c = '\\' then "\\\\"
  else if c = '\n' then "\\n"
  else if c = '\r' then "\\r"
  else if c = '\t' then "\\t"
  else if c = '\x08' then "\\b"
  else if c = '\x0c' then "\\f"
  else if c.toNat < 32 then
    "\\u00" ++ String.mk [Nat.digitChar (c.toNat / 16), Nat.digitChar (c.toNat % 16)]
  else String.singleton c

/-- JSON string escaping of a whole string value, computed over the
character list so that it evaluates by structural recursion. -/
def jsonEscape (s : String) : String :=
  (s.data.map jsonEscapeChar).foldl (fun acc t => acc ++ t) ""

/-- One `"key":"value"` member of a stringified JSON object. -/
def jsonStrField (k v : String) : String :=
  "\"" ++ jsonEscape k ++ "\":\"" ++ jsonEscape v ++ "\""

/-- The body built by `ApiClient.executeTask`:
`JSON.stringify(repository ? \x7b task, repository \x7d : \x7b task \x7d)`;
an empty repository string is falsy. -/
def executeTaskBody (task : String) (repository : Option String) : String :=
  match repository with
  | some repo =>
    if repo = "" then "\x7b" ++ jsonStrField "task" task ++ "\x7d"
    else
      "\x7b" ++ jsonStrField "task" task ++ "," ++
        jsonStrField "repository" repo ++ "\x7d"
  | none => "\x7b" ++ jsonStrField "task" task ++ "\x7d"

/-- The full request issued by `ApiClient.executeTask`. -/
def executeTaskRequest (baseUrl task : String)
    (repository : Option String) : HttpRequest :=
  { method := "POST"
    url := baseUrl ++ "/execute"
    body := some (executeTaskBody task repository) }

/-- State of the task submission form (`TaskForm`). -/
structure FormState where
  task : String
  selectedRepo : String
  isSubmitting : Bool
  error : Option String
  success : Option String
deriving DecidableEq, Repr

/-- The `handleSubmit` handler of the submission form, given the
result of the `POST /execute` call.  Returns the final form state,
the request issued (if any), and the argument passed to the
`onTaskSubmitted` callback (if invoked). -/
def handleSubmit (baseUrl : String) (st : FormState)
    (result : Except String ExecuteTaskResponse) :
    FormState × Option HttpRequest × Option String :=
  if jsTrim st.task = "" ∨ st.selectedRepo = "" then (st, none, none)
  else
    let req := executeTaskRequest baseUrl (jsTrim st.task) (some st.selectedRepo)
    match result with
    | .ok r =>
      ({ st with
           isSubmitting := false
           error := none
           success := some ("Task submitted successfully! ID: " ++ r.task_id)
           task := "" },
       some req, some r.task_id)
    | .error e =>
      ({ st with isSubmitting := false, success := none, error := some e },
       some req, none)

/-- The filter of the task list (`FilterType`). -/
inductive FilterType where
  | all
  | running
  | completed
deriving DecidableEq, Repr

/-- The endpoint contacted by `TasksList.fetchTasks` for each filter,
following its `switch` over the `ApiClient` operations. -/
def fetchTasksEndpoint (baseUrl : String) : FilterType → String
  | .running => baseUrl ++ "/running"
  | .completed => baseUrl ++ "/completed"
  | .all => baseUrl ++ "/tasks"

/-- Characterization of a simple `ApiClient` operation: it succeeds
exactly when the HTTP response is `ok`, returning the parsed body,
and otherwise throws the generic message carrying the HTTP status. -/
abbrev simpleOpSpec {α β : Type} (f : HttpResponse α → Except String β)
    (parse : α → β) (r : HttpResponse α) : Prop :=
  isOkE (f r) = r.ok ∧
  (r.ok = true → f r = .ok (parse r.body)) ∧
  (r.ok = false → f r = .error (httpErrMsg r.status))

/-- Characterization of an `ApiClient` operation that extracts a
backend-supplied error message from the response body on failure,
falling back to the generic status message. -/
abbrev backendErrOpSpec {α : Type} (f : HttpResponse α → Except String α)
    (errField : α → Option String) (r : HttpResponse α) : Prop :=
  isOkE (f r) = r.ok ∧
  (r.ok = true → f r = .ok r.body) ∧
  (r.ok = false →
    f r = .error (jsOrString (errField r.body) (httpErrMsg r.status)))

/-- A sample running task used to instantiate witnesses. -/
def sampleRunningTask : Task :=
  { id := "abc123"
    task := "add README"
    status := .running
    start_time := "2024-01-01T00:00:00Z"
    end_time := none
    output := none
    error := none
    return_code := none
    temp_dir := none
    session_id := some "sess-1"
    original_task := none
    feedback_history := none }

/-- A sample completed task used to instantiate witnesses. -/
def sampleCompletedTask : Task :=
  { sampleRunningTask with
      status := .completed
      end_time := some "2024-01-01T00:01:00Z"
      output := some "done"
      return_code := some 0 }

/-- A sample failed task used to instantiate witnesses. -/
def sampleFailedTask : Task :=
  { sampleRunningTask with
      status := .failed
      end_time := some "2024-01-01T00:02:00Z"
      error := some "boom"
      return_code := some 1 }

/-- A content response flagged as a git repository whose content tag
is nevertheless `files`, used to exercise the Create PR guard. -/
def sampleGitFilesContent : TaskContentResponse :=
  { task_id := "abc123"
    is_git_repo := true
    content_type := .files
    content := some (.fileList [])
    count := some 0 }

/-- A sample successful feedback response used in witnesses. -/
def sampleFeedbackResponse : FeedbackResponse :=
  { success := true
    feedback_task_id := "fb-42"
    message := "feedback accepted"
    error := none }

/-- A sample details-panel state used in witnesses. -/
def sampleDetailsState : DetailsState :=
  { currentTask := some sampleCompletedTask
    taskContent := some sampleGitFilesContent
    feedback := " fix the typo "
    sendingFeedback := false
    showFeedbackModal := true
    showFeedbackSuccess := false
    feedbackTaskId := none
    error := none }

/-- A freshly mounted polling-hook state used in witnesses; callbacks
are modelled as natural-number identifiers. -/
def samplePollState : PollState Nat :=
  { savedCallback := 0, deps := none, timer := none, nextId := 0 }

/-- A sample fetch sequence for a run of silent polls: one more
`running` report, then the transition to `completed`, then a repeated
`completed` report. -/
def sampleFetchSeq : List Task :=
  [sampleRunningTask, sampleCompletedTask, sampleCompletedTask]

/-- A sample successful `POST /execute` response. -/
def sampleExecOk : HttpResponse ExecuteTaskResponse :=
  ⟨true, 200, ⟨"abc123", "Task started"⟩⟩

/-- A sample failed `POST /execute` response. -/
def sampleExecErr : HttpResponse ExecuteTaskResponse :=
  ⟨false, 500, ⟨"", ""⟩⟩

/-- A sample successful `GET /status/id` response. -/
def sampleStatusResp : HttpResponse Task := ⟨true, 200, sampleRunningTask⟩

/-- A sample successful `GET /tasks` response. -/
def sampleListResp : HttpResponse TaskListResponse :=
  ⟨true, 200, ⟨[sampleRunningTask], 1⟩⟩

/-- A sample successful `GET /running` response. -/
def sampleRunningResp : HttpResponse RunningTasksResponse :=
  ⟨true, 200, ⟨[sampleRunningTask], 1⟩⟩

/-- A sample successful `GET /completed` response. -/
def sampleCompletedResp : HttpResponse CompletedTasksResponse :=
  ⟨true, 200, ⟨[sampleCompletedTask], 1⟩⟩

/-- A sample successful `GET /content/id` response. -/
def sampleContentResp : HttpResponse TaskContentResponse :=
  ⟨true, 200, sampleGitFilesContent⟩

/-- A sample successful `DELETE /delete/id` response. -/
def sampleDeleteResp : HttpResponse DeleteTaskResponse :=
  ⟨true, 200, ⟨"deleted", "abc123"⟩⟩

/-- A sample failed `POST /create-pr/id` response carrying a
backend-supplied error message. -/
def samplePRErrorResp : HttpResponse CreatePRResponse :=
  ⟨false, 500,
    { success := false
      pr_url := none
      pr_number := none
      branch_name := none
      message := none
      error := some "backend broke" }⟩

/-- A sample successful `POST /feedback/id` response. -/
def sampleFeedbackResp : HttpResponse FeedbackResponse :=
  ⟨true, 200, sampleFeedbackResponse⟩

/-- C1: a silent background poll leaves the displayed task unchanged
when none of the tracked fields (status, end time, output, error,
feedback history) differs between the displayed and the fetched task,
and commits the fetched task when any of them differs. -/
theorem c1_silent_poll_commit (cur fetched : Task) :
    ((fetched.status = cur.status ∧ fetched.end_time = cur.end_time ∧
      fetched.output = cur.output ∧ fetched.error = cur.error ∧
      fetched.feedback_history = cur.feedback_history) →
        (silentRefreshStep cur fetched).1 = cur) ∧
    ((fetched.status ≠ cur.status ∨ fetched.end_time ≠ cur.end_time ∨
      fetched.output ≠ cur.output ∨ fetched.error ≠ cur.error ∨
      fetched.feedback_history ≠ cur.feedback_history) →
        (silentRefreshStep cur fetched).1 = fetched) := by
  constructor
  · rintro ⟨h1, h2, h3, h4, h5⟩
    simp [silentRefreshStep, hasChanges, h1, h2, h3, h4, h5]
  · intro h
    have hc : hasChanges cur fetched = true := by
      simp only [hasChanges, Bool.or_eq_true, decide_eq_true_eq]
      tauto
    simp [silentRefreshStep, hc]

/-- Witness for C1: on identical fetch results the displayed task is
kept; on a status change the fetched task is committed. -/
theorem c1_witness :
    (silentRefreshStep sampleRunningTask sampleRunningTask).1 =
      sampleRunningTask ∧
    (silentRefreshStep sampleRunningTask sampleCompletedTask).1 =
      sampleCompletedTask :=
  ⟨(c1_silent_poll_commit sampleRunningTask sampleRunningTask).1
      ⟨rfl, rfl, rfl, rfl, rfl⟩,
   (c1_silent_poll_commit sampleRunningTask sampleCompletedTask).2
      (Or.inl (by decide))⟩

/-- C3: diff file classification: old path `/dev/null` gives `add`;
otherwise new path `/dev/null` gives `delete`; otherwise differing
paths give `rename`; otherwise `modify`.  Missing paths default to
`/dev/null` via `resolvePath`. -/
theorem c3_file_type_classification (o n : Option String) :
    (resolvePath o = "/dev/null" → getFileType o n = "add") ∧
    (resolvePath o ≠ "/dev/null" → resolvePath n = "/dev/null" →
      getFileType o n = "delete") ∧
    (resolvePath o ≠ "/dev/null" → resolvePath n ≠ "/dev/null" →
      resolvePath o ≠ resolvePath n → getFileType o n = "rename") ∧
    (resolvePath o ≠ "/dev/null" → resolvePath n ≠ "/dev/null" →
      resolvePath o = resolvePath n → getFileType o n = "modify") := by
  refine ⟨?_, ?_, ?_, ?_⟩ <;> intros <;> simp_all [getFileType]

/-- Witness for C3: the four classifications at concrete paths. -/
theorem c3_witness :
    getFileType none (some "a.txt") = "add" ∧
    getFileType (some "a.txt") none = "delete" ∧
    getFileType (some "a.txt") (some "b.txt") = "rename" ∧
    getFileType (some "a.txt") (some "a.txt") = "modify" :=
  ⟨(c3_file_type_classification none (some "a.txt")).1 (by decide),
   (c3_file_type_classification (some "a.txt") none).2.1
      (by decide) (by decide),
   (c3_file_type_classification (some "a.txt") (some "b.txt")).2.2.1
      (by decide) (by decide) (by decide),
   (c3_file_type_classification (some "a.txt") (some "a.txt")).2.2.2
      (by decide) (by decide) (by decide)⟩

/-- C5 counterexample: the Create PR button is enabled on a content
response that is flagged as a git repository but whose content tag is
`files`, not `diff` — the guard never consults the content tag. -/
theorem c5_counterexample :
    createPRButtonVisible (some sampleGitFilesContent) (some "gho-token")
      sampleCompletedTask = true ∧
    sampleGitFilesContent.content_type ≠ ContentType.diff := by
  constructor
  · decide
  · decide

/-- C5 (amended): the Create PR button is enabled exactly when the
loaded content response has its `is_git_repo` flag set, the session
holds a nonempty access token, and the task status is terminal. -/
theorem c5_create_pr_guard (content : Option TaskContentResponse)
    (accessToken : Option String) (t : Task) :
    createPRButtonVisible content accessToken t = true ↔
      ((∃ c, content = some c ∧ c.is_git_repo = true) ∧
       (∃ s, accessToken = some s ∧ s ≠ "") ∧
       (t.status = TaskStatus.completed ∨ t.status = TaskStatus.failed)) := by
  rcases content with _ | c <;> rcases accessToken with _ | s <;>
    cases ht : t.status <;>
    simp [createPRButtonVisible, isTerminal, ht]

/-- C9: the `running` filter contacts `GET /running` and maps
`running_tasks` and `count` into the common shape, while the `all`
filter returns the `GET /tasks` body unchanged. -/
theorem c9_running_filter (baseUrl : String) (s1 s2 : Nat)
    (rb : RunningTasksResponse) (ab : TaskListResponse) :
    fetchTasksEndpoint baseUrl FilterType.running = baseUrl ++ "/running" ∧
    listRunningTasks ⟨true, s1, rb⟩ =
      Except.ok ⟨rb.running_tasks, rb.count⟩ ∧
    fetchTasksEndpoint baseUrl FilterType.all = baseUrl ++ "/tasks" ∧
    listAllTasks ⟨true, s2, ab⟩ = Except.ok ab :=
  ⟨rfl, rfl, rfl, rfl⟩

/-- C8: submitting `add README` for repository `octo/repo` issues
`POST /execute` with body exactly
`\x7b"task":"add README","repository":"octo/repo"\x7d`; on success the
text field is cleared, the success message surfaces the returned
`task_id`, and the submitted-callback receives that id. -/
theorem c8_submit_scenario (baseUrl : String) (b : Bool)
    (e s : Option String) (r : ExecuteTaskResponse) :
    handleSubmit baseUrl ⟨"add README", "octo/repo", b, e, s⟩ (.ok r) =
      (⟨"", "octo/repo", false, none,
         some ("Task submitted successfully! ID: " ++ r.task_id)⟩,
       some ⟨"POST", baseUrl ++ "/execute",
         some "\x7b\"task\":\"add README\",\"repository\":\"octo/repo\"\x7d"⟩,
       some r.task_id) := by
  have hguard : ¬((jsTrim "add README" = "") ∨ ("octo/repo" = "")) := by decide
  have hbody : executeTaskBody (jsTrim "add README") (some "octo/repo") =
      "\x7b\"task\":\"add README\",\"repository\":\"octo/repo\"\x7d" := by
    decide
  simp [handleSubmit, hguard, executeTaskRequest, hbody]
  decide

/-- C10: the body sent by the submit handler uses the
whitespace-trimmed description; with an empty or whitespace-only
description or no selected repository, no request is issued, no
callback fires, and the form state is unchanged. -/
theorem c10_trim_and_guard (baseUrl : String) (st : FormState)
    (result : Except String ExecuteTaskResponse) :
    (jsTrim st.task ≠ "" → st.selectedRepo ≠ "" →
      (handleSubmit baseUrl st result).2.1 =
        some (executeTaskRequest baseUrl (jsTrim st.task)
          (some st.selectedRepo))) ∧
    (jsTrim st.task = "" ∨ st.selectedRepo = "" →
      handleSubmit baseUrl st result = (st, none, none)) := by
  constructor
  · intro h1 h2
    cases result <;> simp [handleSubmit, h1, h2]
  · intro h
    simp [handleSubmit, h]

/-- Witness for C10: a padded description is trimmed in the request,
and a whitespace-only description is a complete no-op. -/
theorem c10_witness :
    (handleSubmit "http://localhost:8080"
        ⟨" add README ", "octo/repo", false, none, none⟩
        (.error "down")).2.1 =
      some (executeTaskRequest "http://localhost:8080" (jsTrim " add README ")
        (some "octo/repo")) ∧
    handleSubmit "http://localhost:8080"
        ⟨"   ", "octo/repo", false, none, none⟩ (.error "down") =
      (⟨"   ", "octo/repo", false, none, none⟩, none, none) :=
  ⟨(c10_trim_and_guard "http://localhost:8080"
      ⟨" add README ", "octo/repo", false, none, none⟩ (.error "down")).1
      (by decide) (by decide),
   (c10_trim_and_guard "http://localhost:8080"
      ⟨"   ", "octo/repo", false, none, none⟩ (.error "down")).2
      (Or.inl (by decide))⟩

/-- C7: the polling hook starts a timer with the given interval when
enabled; a render that changes only the callback keeps the very same
timer and the next tick invokes the new callback; disabling or
unmounting clears the timer. -/
theorem c7_use_polling {κ : Type} (st : PollState κ) (cb : κ)
    (interval : Nat) (e : Bool) :
    (st.deps ≠ some (interval, true) →
      (renderPoll st cb interval true).timer = some (interval, st.nextId)) ∧
    (st.deps = some (interval, e) →
      (renderPoll st cb interval e).timer = st.timer ∧
      tickPoll (renderPoll st cb interval e) = cb) ∧
    (st.deps ≠ some (interval, false) →
      (renderPoll st cb interval false).timer = none) ∧
    (unmountPoll st).timer = none := by
  refine ⟨?_, ?_, ?_, rfl⟩
  · intro h
    simp [renderPoll, h]
  · intro h
    simp [renderPoll, tickPoll, h]
  · intro h
    simp [renderPoll, h]

/-- Witness for C7: from a fresh mount, enabling starts timer id 0
with interval 1000; re-rendering with a new callback keeps that timer
and ticks the new callback; disabling from a fresh mount yields no
timer. -/
theorem c7_witness :
    (renderPoll samplePollState 1 1000 true).timer = some (1000, 0) ∧
    ((renderPoll (renderPoll samplePollState 1 1000 true) 2 1000 true).timer =
        (renderPoll samplePollState 1 1000 true).timer ∧
      tickPoll (renderPoll (renderPoll samplePollState 1 1000 true) 2 1000 true) = 2) ∧
    (renderPoll samplePollState 1 1000 false).timer = none :=
  ⟨(c7_use_polling samplePollState 1 1000 true).1 (by decide),
   (c7_use_polling (renderPoll samplePollState 1 1000 true) 2 1000 true).2.1
      (by decide),
   (c7_use_polling samplePollState 1 1000 false).2.2.1 (by decide)⟩

/-- C6: sending feedback on a displayed task with a session id, when
the backend reports success, closes the feedback modal, opens the
success modal showing the returned feedback task id, and replaces the
displayed task by a synthesized task with that id, status `running`
(so the 1-second silent poll is enabled), and the original session
id. -/
theorem c6_feedback_success (st : DetailsState) (cur : Task)
    (resp : FeedbackResponse) (now sid : String)
    (hcur : st.currentTask = some cur) (hid : cur.id ≠ "")
    (hsess : cur.session_id = some sid)
    (hfb : jsTrim st.feedback ≠ "") (hsucc : resp.success = true) :
    (sendFeedbackStep st (.ok resp) now).showFeedbackModal = false ∧
    (sendFeedbackStep st (.ok resp) now).showFeedbackSuccess = true ∧
    (sendFeedbackStep st (.ok resp) now).feedbackTaskId =
      some resp.feedback_task_id ∧
    (∃ t, (sendFeedbackStep st (.ok resp) now).currentTask = some t ∧
      t.id = resp.feedback_task_id ∧ t.status = TaskStatus.running ∧
      t.session_id = some sid) ∧
    pollingEnabled (sendFeedbackStep st (.ok resp) now) = true := by
  have hguard : ¬(cur.id = "" ∨ jsTrim st.feedback = "") := by tauto
  refine ⟨?_, ?_, ?_, ⟨mkFeedbackTask resp cur st.feedback now, ?_, ?_, ?_, ?_⟩, ?_⟩ <;>
    simp [sendFeedbackStep, hcur, hguard, hsucc, pollingEnabled,
      mkFeedbackTask, hsess]

/-- Witness for C6: sending `fix the typo` on the completed sample
task with session `sess-1` and a successful backend response. -/
theorem c6_witness :
    (sendFeedbackStep sampleDetailsState (.ok sampleFeedbackResponse)
        "2024-02-02T00:00:00Z").showFeedbackModal = false ∧
    (sendFeedbackStep sampleDetailsState (.ok sampleFeedbackResponse)
        "2024-02-02T00:00:00Z").showFeedbackSuccess = true ∧
    (sendFeedbackStep sampleDetailsState (.ok sampleFeedbackResponse)
        "2024-02-02T00:00:00Z").feedbackTaskId =
      some sampleFeedbackResponse.feedback_task_id ∧
    (∃ t, (sendFeedbackStep sampleDetailsState (.ok sampleFeedbackResponse)
        "2024-02-02T00:00:00Z").currentTask = some t ∧
      t.id = sampleFeedbackResponse.feedback_task_id ∧
      t.status = TaskStatus.running ∧ t.session_id = some "sess-1") ∧
    pollingEnabled (sendFeedbackStep sampleDetailsState
      (.ok sampleFeedbackResponse) "2024-02-02T00:00:00Z") = true :=
  c6_feedback_success sampleDetailsState sampleCompletedTask
    sampleFeedbackResponse "2024-02-02T00:00:00Z" "sess-1"
    rfl (by decide) rfl (by decide) rfl

/-- Any operation of the `if ok then parse else throw status` shape
satisfies `simpleOpSpec`. -/
lemma simpleOpSpec_of_ite {α β : Type} (f : HttpResponse α → Except String β)
    (parse : α → β)
    (hf : ∀ r, f r = if r.ok then Except.ok (parse r.body)
      else Except.error (httpErrMsg r.status)) :
    ∀ r, simpleOpSpec f parse r := by
  intro r
  obtain ⟨ok, s, b⟩ := r
  cases ok <;> simp [simpleOpSpec, hf, isOkE]

/-- Any operation of the `if ok then body else throw backend message`
shape satisfies `backendErrOpSpec`. -/
lemma backendErrOpSpec_of_ite {α : Type}
    (f : HttpResponse α → Except String α) (errField : α → Option String)
    (hf : ∀ r, f r = if r.ok then Except.ok r.body
      else Except.error (jsOrString (errField r.body) (httpErrMsg r.status))) :
    ∀ r, backendErrOpSpec f errField r := by
  intro r
  obtain ⟨ok, s, b⟩ := r
  cases ok <;> simp [backendErrOpSpec, hf, isOkE]

/-- C4: every API client operation throws exactly when the HTTP
response is not successful; the error carries the HTTP status, or for
the PR and feedback operations the backend-supplied error message
when present; on success the parsed body is returned, typed (and for
the list operations mapped) to the corresponding record. -/
theorem c4_api_error_handling (r1 : HttpResponse ExecuteTaskResponse)
    (r2 : HttpResponse Task) (r3 : HttpResponse TaskListResponse)
    (r4 : HttpResponse RunningTasksResponse)
    (r5 : HttpResponse CompletedTasksResponse)
    (r6 : HttpResponse TaskContentResponse)
    (r7 : HttpResponse DeleteTaskResponse)
    (r8 : HttpResponse CreatePRResponse)
    (r9 : HttpResponse FeedbackResponse) :
    simpleOpSpec executeTask id r1 ∧
    simpleOpSpec getTaskStatus id r2 ∧
    simpleOpSpec listAllTasks id r3 ∧
    simpleOpSpec listRunningTasks
      (fun b => ⟨b.running_tasks, b.count⟩) r4 ∧
    simpleOpSpec listCompletedTasks
      (fun b => ⟨b.completed_tasks, b.count⟩) r5 ∧
    simpleOpSpec getTaskContent id r6 ∧
    simpleOpSpec deleteTask id r7 ∧
    backendErrOpSpec createPullRequest CreatePRResponse.error r8 ∧
    backendErrOpSpec sendFeedback FeedbackResponse.error r9 :=
  ⟨simpleOpSpec_of_ite executeTask id (fun _ => rfl) r1,
   simpleOpSpec_of_ite getTaskStatus id (fun _ => rfl) r2,
   simpleOpSpec_of_ite listAllTasks id (fun _ => rfl) r3,
   simpleOpSpec_of_ite listRunningTasks
     (fun b => (⟨b.running_tasks, b.count⟩ : TaskListResponse)) (fun _ => rfl) r4,
   simpleOpSpec_of_ite listCompletedTasks
     (fun b => (⟨b.completed_tasks, b.count⟩ : TaskListResponse)) (fun _ => rfl) r5,
   simpleOpSpec_of_ite getTaskContent id (fun _ => rfl) r6,
   simpleOpSpec_of_ite deleteTask id (fun _ => rfl) r7,
   backendErrOpSpec_of_ite createPullRequest CreatePRResponse.error
     (fun _ => rfl) r8,
   backendErrOpSpec_of_ite sendFeedback FeedbackResponse.error
     (fun _ => rfl) r9⟩

/-- Witness for C4: a successful execute call returns the parsed
body, a failed one throws the status message, and a failed PR
creation surfaces the backend-supplied error message. -/
theorem c4_witness :
    executeTask sampleExecOk = Except.ok sampleExecOk.body ∧
    executeTask sampleExecErr = Except.error (httpErrMsg 500) ∧
    createPullRequest samplePRErrorResp =
      Except.error (jsOrString (some "backend broke") (httpErrMsg 500)) :=
  ⟨(c4_api_error_handling sampleExecOk sampleStatusResp sampleListResp
      sampleRunningResp sampleCompletedResp sampleContentResp
      sampleDeleteResp samplePRErrorResp sampleFeedbackResp).1.2.1 rfl,
   (c4_api_error_handling sampleExecErr sampleStatusResp sampleListResp
      sampleRunningResp sampleCompletedResp sampleContentResp
      sampleDeleteResp samplePRErrorResp sampleFeedbackResp).1.2.2 rfl,
   (c4_api_error_handling sampleExecOk sampleStatusResp sampleListResp
      sampleRunningResp sampleCompletedResp sampleContentResp
      sampleDeleteResp samplePRErrorResp
      sampleFeedbackResp).2.2.2.2.2.2.2.1.2.2 rfl⟩

/-- The task displayed after a silent poll always carries the fetched
status: either the fetched task was committed, or nothing changed and
the statuses already agreed. -/
lemma silentRefreshStep_fst_status (cur f : Task) :
    ((silentRefreshStep cur f).1).status = f.status := by
  by_cases h : hasChanges cur f = true
  · simp [silentRefreshStep, h]
  · have hb : hasChanges cur f = false := by simpa using h
    have hs : f.status = cur.status := by
      by_contra hne
      simp [hasChanges, hne] at hb
    simp [silentRefreshStep, hb, hs]

/-- The content re-fetch fires exactly when the fetched status
differs from the displayed one and is terminal. -/
lemma silentRefreshStep_snd_fire (cur f : Task) :
    (silentRefreshStep cur f).2 =
      (decide (f.status ≠ cur.status) && isTerminal f.status) := by
  by_cases h : hasChanges cur f = true
  · simp [silentRefreshStep, h]
  · have hb : hasChanges cur f = false := by simpa using h
    have hs : f.status = cur.status := by
      by_contra hne
      simp [hasChanges, hne] at hb
    simp [silentRefreshStep, hb, hs]

/-- Per-step fire count agrees with the running-to-terminal
transition count, given that a terminal status never changes. -/
lemma fire_count_step (a b : TaskStatus)
    (h : (!isTerminal a || decide (b = a)) = true) :
    (if (decide (b ≠ a) && isTerminal b) = true then 1 else 0) =
      (if a = TaskStatus.running ∧ isTerminal b = true then 1 else 0) := by
  cases a <;> cases b <;> simp_all [isTerminal]

/-- Along a run of silent polls whose fetched statuses respect the
status invariant, the number of content re-fetches equals the number
of transitions from `running` into a terminal status. -/
lemma silentPollTrace_count (fetches : List Task) : ∀ cur : Task,
    statusInvariant cur.status (fetches.map Task.status) = true →
    (silentPollTrace cur fetches).2 =
      runToTerminalCount cur.status (fetches.map Task.status) := by
  induction fetches with
  | nil =>
    intro cur _
    simp [silentPollTrace, runToTerminalCount]
  | cons f rest ih =>
    intro cur h
    have h' : (!isTerminal cur.status || decide (f.status = cur.status)) = true ∧
        statusInvariant f.status (rest.map Task.status) = true := by
      simpa [statusInvariant, Bool.and_eq_true] using h
    have hrest := ih (silentRefreshStep cur f).1
      (by rw [silentRefreshStep_fst_status]; exact h'.2)
    rw [silentRefreshStep_fst_status] at hrest
    simp only [silentPollTrace, List.map_cons, runToTerminalCount]
    rw [hrest, silentRefreshStep_snd_fire]
    exact congrArg (· + runToTerminalCount f.status (rest.map Task.status))
      (fire_count_step cur.status f.status h'.1)

/-- Once the leading status of a valid trace is terminal, no
running-to-terminal transition remains. -/
lemma runToTerminalCount_terminal (l : List TaskStatus) : ∀ prev,
    statusInvariant prev l = true → isTerminal prev = true →
    runToTerminalCount prev l = 0 := by
  induction l with
  | nil =>
    intro prev _ _
    simp [runToTerminalCount]
  | cons s rest ih =>
    intro prev h ht
    have h' : (!isTerminal prev || decide (s = prev)) = true ∧
        statusInvariant s rest = true := by
      simpa [statusInvariant, Bool.and_eq_true] using h
    have hs : s = prev := by
      have := h'.1
      simp [ht] at this
      exact this
    subst hs
    have hnr : ¬(s = TaskStatus.running ∧ isTerminal s = true) := by
      rintro ⟨hr, _⟩
      rw [hr] at ht
      simp [isTerminal] at ht
    simp only [runToTerminalCount, if_neg hnr, Nat.zero_add]
    exact ih s h'.2 ht

/-- C2: along any run of silent polls whose fetched statuses respect
the documented status invariant (a terminal status never changes),
the content re-fetch is triggered exactly once per transition from
`running` into a terminal status, and zero times when the displayed
status is already terminal. -/
theorem c2_content_refetch_once (init : Task) (fetches : List Task)
    (h : statusInvariant init.status (fetches.map Task.status) = true) :
    (silentPollTrace init fetches).2 =
      runToTerminalCount init.status (fetches.map Task.status) ∧
    (isTerminal init.status = true →
      (silentPollTrace init fetches).2 = 0) := by
  refine ⟨silentPollTrace_count fetches init h, fun ht => ?_⟩
  rw [silentPollTrace_count fetches init h]
  exact runToTerminalCount_terminal (fetches.map Task.status) init.status h ht

/-- Witness for C2: polling the sample running task through a fetch
sequence running, completed, completed triggers the content re-fetch
exactly as often as the one transition into a terminal status. -/
theorem c2_witness :
    statusInvariant sampleRunningTask.status
      (sampleFetchSeq.map Task.status) = true ∧
    (silentPollTrace sampleRunningTask sampleFetchSeq).2 =
      runToTerminalCount sampleRunningTask.status
        (sampleFetchSeq.map Task.status) :=
  ⟨by decide,
   (c2_content_refetch_once sampleRunningTask sampleFetchSeq (by decide)).1⟩

end Junior
